import Mathlib

/-!
Verification of the First Wheels Fluid Motion Device controller (v2.2.1).

The controller is a single Arduino sketch.  Per tick (one iteration of
`loop`) it: derives four per-motor speed bounds and a trim bias from two
potentiometers, polls the five buttons in priority order (pin 2 = e-stop
first), runs exactly one state-machine update on the two persistent motor
command values, recomputes the derived raw speeds and directions, and, on
ticks where no button latch is pending, decelerates and transmits.

The shallow embedding below follows the source text of the sketch:
machine `int` values are `Int`, `byte` storage is modelled by reduction
modulo 256 at the points where the source assigns into a `byte` variable,
and the Arduino `map` uses C truncated division (`Int.tdiv`).
-/

set_option maxRecDepth 2048

namespace FirstWheels

/-- Adjustable parameters of the sketch (compile-time constants). -/
def accelFactor : Int := 2

/-- Decelerate increment. -/
def decelFactor : Int := 4

/-- Trim sensitivity bound. -/
def trimSens : Int := 6

/-- Beginner-mode latch duration. -/
def beginnerModeDelay : Nat := 15

/-- Command value at center/stopped for motor 1. -/
def deadStop1 : Int := 64

/-- Command value at center/stopped for motor 2. -/
def deadStop2 : Int := 192

/-- C `abs` on `int`. -/
def intAbs (x : Int) : Int := if x < 0 then -x else x

/-- Conversion of an `int` value into a `byte` variable (mod 256). -/
def toByte (x : Int) : Nat := (x % 256).toNat

/-- The Arduino `map(x, inMin, inMax, outMin, outMax)` helper: linear
interpolation over `long` arithmetic with C truncated division. -/
def mapArduino (x inMin inMax outMin outMax : Int) : Int :=
  Int.tdiv ((x - inMin) * (outMax - outMin)) (inMax - inMin) + outMin

/-- The global mutable state of the sketch that survives across ticks:
the two persistent motor command values, the derived raw speeds and
directions (stored in `byte` globals), the button latch counter, the pin
number left in the global `buttonPinNumber` by the polling loop, and the
beginner-mode flag fixed at setup. -/
structure MachineState where
  motorControl1 : Int
  motorControl2 : Int
  rawSpeed1 : Nat
  rawSpeed2 : Nat
  direction1 : Nat
  direction2 : Nat
  buttonPressedIndicator : Nat
  buttonPinNumber : Nat
  beginnerMode : Bool
  deriving DecidableEq

/-- The per-tick derived values: the four governor bounds (stored into
`byte` globals at the top of `loop`) and the signed trim adjustment. -/
structure Env where
  maxRevSpeed1 : Int
  maxFwdSpeed1 : Int
  maxRevSpeed2 : Int
  maxFwdSpeed2 : Int
  trimAdjustment : Int

/-- The governor/trim derivations at the top of `loop`:
`maxRevSpeed1 = map(pot0,0,1023,63,1)` and so on, each stored into a
`byte`, and `trimAdjustment = map(pot2,0,1023,-trimSens,trimSens)`. -/
def computeEnv (pot0 pot2 : Int) : Env :=
  { maxRevSpeed1 := (mapArduino pot0 0 1023 63 1) % 256
  , maxFwdSpeed1 := (mapArduino pot0 0 1023 65 127) % 256
  , maxRevSpeed2 := (mapArduino pot0 0 1023 191 128) % 256
  , maxFwdSpeed2 := (mapArduino pot0 0 1023 193 255) % 256
  , trimAdjustment := mapArduino pot2 0 1023 (-trimSens) trimSens }

/-- Result of `sendCommandFunction`: the updated persistent state (the
range clamp is applied to `motorControl1/2` themselves) together with the
two values assigned to the `byte` globals `motorByte1/2`, kept here as the
`int` arithmetic results before the `byte` conversion. -/
structure SendResult where
  state : MachineState
  motorByteRaw1 : Int
  motorByteRaw2 : Int

/-- `sendCommandFunction`: clamps `motorControl1` into `[1,127]` and
`motorControl2` into `[128,255]` (persisting the clamp), copies the
clamped values into the motor bytes, and then, when `rawSpeed1` exceeds
`abs(trimAdjustment)`, applies the trim correction keyed on the global
`buttonPinNumber` (case 3 = forward, case 4 = reverse).  The serial write
transmits the two bytes. -/
def sendCommandFunction (env : Env) (s : MachineState) : SendResult :=
  let m1 := if s.motorControl1 < 1 then 1 else s.motorControl1
  let m1 := if m1 > 127 then 127 else m1
  let m2 := if s.motorControl2 < 128 then 128 else s.motorControl2
  let m2 := if m2 > 255 then 255 else m2
  let bb :=
    if (s.rawSpeed1 : Int) > intAbs env.trimAdjustment then
      if s.buttonPinNumber = 3 then
        if env.trimAdjustment < 0 then
          (m1 + env.trimAdjustment, m2)
        else
          (m1, m2 - env.trimAdjustment)
      else if s.buttonPinNumber = 4 then
        if env.trimAdjustment < 0 then
          (m1 - env.trimAdjustment, m2)
        else
          (m1, m2 + env.trimAdjustment)
      else (m1, m2)
    else (m1, m2)
  { state := { s with motorControl1 := m1, motorControl2 := m2 }
  , motorByteRaw1 := bb.1
  , motorByteRaw2 := bb.2 }

/-- The byte pair actually written to the serial line by
`sendCommandFunction` (the `byte` globals `motorByte1`, `motorByte2`). -/
def emitted (r : SendResult) : Nat × Nat :=
  (toByte r.motorByteRaw1, toByte r.motorByteRaw2)

/-- `accelerateForward`: compares the forward headrooms of the two motors.
When they differ by less than `accelFactor` the lagging motor is snapped
by exactly the difference; when they are equal both motors step (with the
larger `decelFactor` below center, dead-spot skip, and governor clamp);
otherwise the motor with the larger headroom steps by `accelFactor` with
dead-spot skip and governor clamp.  After a snap, control falls through to
the single-motor branches (the `speedDifference` variable is not
recomputed). -/
def accelerateForward (env : Env) (s : MachineState) : MachineState :=
  let sd := intAbs ((env.maxFwdSpeed1 - s.motorControl1) -
                    (env.maxFwdSpeed2 - s.motorControl2))
  let m1 := if sd ≠ 0 ∧ sd < accelFactor ∧
               (env.maxFwdSpeed1 - s.motorControl1) >
                 (env.maxFwdSpeed2 - s.motorControl2) then
              s.motorControl1 + sd else s.motorControl1
  let m2 := if sd ≠ 0 ∧ sd < accelFactor ∧
               ¬((env.maxFwdSpeed1 - s.motorControl1) >
                   (env.maxFwdSpeed2 - s.motorControl2)) then
              s.motorControl2 + sd else s.motorControl2
  if sd = 0 then
    let m1 := if m1 < deadStop1 then m1 + decelFactor else m1 + accelFactor
    let m1 := if m1 = deadStop1 then m1 + accelFactor else m1
    let m1 := if m1 > env.maxFwdSpeed1 then env.maxFwdSpeed1 else m1
    let m2 := if m2 < deadStop2 then m2 + decelFactor else m2 + accelFactor
    let m2 := if m2 = deadStop2 then m2 + accelFactor else m2
    let m2 := if m2 > env.maxFwdSpeed2 then env.maxFwdSpeed2 else m2
    { s with motorControl1 := m1, motorControl2 := m2 }
  else if (env.maxFwdSpeed1 - m1) > (env.maxFwdSpeed2 - m2) then
    let m1 := m1 + accelFactor
    let m1 := if m1 = deadStop1 then m1 + accelFactor else m1
    let m1 := if m1 > env.maxFwdSpeed1 then env.maxFwdSpeed1 else m1
    { s with motorControl1 := m1, motorControl2 := m2 }
  else
    let m2 := m2 + accelFactor
    let m2 := if m2 = deadStop2 then deadStop2 + accelFactor else m2
    let m2 := if m2 > env.maxFwdSpeed2 then env.maxFwdSpeed2 else m2
    { s with motorControl1 := m1, motorControl2 := m2 }

/-- `accelerateReverse`: when the forward headrooms of the two motors are
equal, both motors step toward their reverse floors (the source compares
`motorControl1 > deadStop2`, i.e. motor 1 against motor 2's center, to
choose between `decelFactor` and `accelFactor`); otherwise only the motor
with the larger forward headroom deficit steps.  Dead-spot skip and
reverse-floor clamps follow each step.  There is no convergence-snap
branch. -/
def accelerateReverse (env : Env) (s : MachineState) : MachineState :=
  let m1 := s.motorControl1
  let m2 := s.motorControl2
  if (env.maxFwdSpeed1 - m1) = (env.maxFwdSpeed2 - m2) then
    let m1 := if m1 > deadStop2 then m1 - decelFactor else m1 - accelFactor
    let m1 := if m1 = deadStop1 then deadStop1 - accelFactor else m1
    let m1 := if m1 < env.maxRevSpeed1 then env.maxRevSpeed1 else m1
    let m2 := if m2 > deadStop2 then m2 - decelFactor else m2 - accelFactor
    let m2 := if m2 = deadStop2 then deadStop2 - accelFactor else m2
    let m2 := if m2 < env.maxRevSpeed2 then env.maxRevSpeed2 else m2
    { s with motorControl1 := m1, motorControl2 := m2 }
  else if (env.maxFwdSpeed1 - m1) < (env.maxFwdSpeed2 - m2) then
    let m1 := m1 - accelFactor
    let m1 := if m1 = deadStop1 then deadStop1 - accelFactor else m1
    let m1 := if m1 < env.maxRevSpeed1 then env.maxRevSpeed1 else m1
    { s with motorControl1 := m1, motorControl2 := m2 }
  else
    let m2 := m2 - accelFactor
    let m2 := if m2 = deadStop2 then deadStop2 - accelFactor else m2
    let m2 := if m2 < env.maxRevSpeed2 then env.maxRevSpeed2 else m2
    { s with motorControl1 := m1, motorControl2 := m2 }

/-- `leftButtonPressed`.  When the raw speeds are equal: if the directions
differ or the raw speed is zero, motor 1 steps toward reverse and motor 2
toward forward by `accelFactor`; otherwise (directions equal, raw speed
nonzero) the source tests `direction1 == 1` (the char `'1'` is 49, so this
only matches the uninitialised value 1) and steps one motor by
`decelFactor`.  The trailing `direction1 != direction2` block of the
source is unreachable because every path before it returns.  When the raw
speeds differ, the smaller side is rebalanced by `accelFactor`.  Note the
overspeed clamp of the `rawSpeed1 > rawSpeed2` branch assigns
`maxRevSpeed2`. -/
def leftButtonPressed (env : Env) (s : MachineState) : MachineState :=
  if s.rawSpeed1 = s.rawSpeed2 then
    if s.direction1 ≠ s.direction2 ∨ s.rawSpeed1 = 0 then
      let m1 := s.motorControl1 - accelFactor
      let m2 := s.motorControl2 + accelFactor
      let m1 := if m1 = deadStop1 then deadStop1 - accelFactor else m1
      let m1 := if m1 < env.maxRevSpeed1 then env.maxRevSpeed1 else m1
      let m2 := if m2 = deadStop2 then deadStop2 + accelFactor else m2
      let m2 := if m2 > env.maxFwdSpeed2 then env.maxFwdSpeed2 else m2
      { s with motorControl1 := m1, motorControl2 := m2 }
    else
      if s.direction1 = 1 then
        let m1 := s.motorControl1 - decelFactor
        let m1 := if m1 = deadStop1 then deadStop1 - decelFactor else m1
        let m1 := if m1 < env.maxRevSpeed1 then env.maxRevSpeed1 else m1
        { s with motorControl1 := m1 }
      else
        let m2 := s.motorControl2 + decelFactor
        let m2 := if m2 = deadStop2 then deadStop2 + decelFactor else m2
        let m2 := if m2 > env.maxFwdSpeed2 then env.maxFwdSpeed2 else m2
        { s with motorControl2 := m2 }
  else
    if s.rawSpeed1 < s.rawSpeed2 then
      if s.motorControl1 > env.maxRevSpeed1 then
        let m1 := s.motorControl1 - accelFactor
        let m1 := if m1 = deadStop1 then deadStop1 - accelFactor else m1
        let m1 := if m1 < env.maxRevSpeed1 then env.maxRevSpeed1 else m1
        { s with motorControl1 := m1 }
      else s
    else
      if s.motorControl2 < env.maxFwdSpeed2 then
        let m2 := s.motorControl2 + accelFactor
        let m2 := if m2 = deadStop2 then deadStop2 + accelFactor else m2
        let m2 := if m2 > env.maxFwdSpeed2 then env.maxRevSpeed2 else m2
        { s with motorControl2 := m2 }
      else s

/-- `rightButtonPressed` (the mirror of the left pivot, with its own dead
spot guards written as `== 0 or == deadStop`). -/
def rightButtonPressed (env : Env) (s : MachineState) : MachineState :=
  if s.rawSpeed1 = s.rawSpeed2 then
    if s.direction1 ≠ s.direction2 ∨ s.rawSpeed1 = 0 then
      if s.motorControl1 < env.maxFwdSpeed1 then
        let m1 := s.motorControl1 + accelFactor
        let m2 := s.motorControl2 - accelFactor
        let m1 := if m1 = 0 ∨ m1 = deadStop1 then deadStop1 + accelFactor else m1
        let m2 := if m2 = 0 ∨ m2 = deadStop2 then deadStop2 - accelFactor else m2
        { s with motorControl1 := m1, motorControl2 := m2 }
      else s
    else
      if s.direction1 = 0 then
        if s.motorControl1 < env.maxFwdSpeed1 then
          let m1 := s.motorControl1 + accelFactor
          let m1 := if m1 = 0 ∨ m1 = deadStop1 then deadStop1 + accelFactor else m1
          { s with motorControl1 := m1 }
        else s
      else
        if s.motorControl2 > env.maxRevSpeed2 then
          let m2 := s.motorControl2 - accelFactor
          let m2 := if m2 = 0 ∨ m2 = deadStop2 then deadStop2 - accelFactor else m2
          let m2 := if m2 < env.maxRevSpeed2 then env.maxRevSpeed2 else m2
          { s with motorControl2 := m2 }
        else s
  else
    if s.rawSpeed1 < s.rawSpeed2 then
      if s.motorControl1 < env.maxFwdSpeed1 then
        let m1 := s.motorControl1 + accelFactor
        let m1 := if m1 = 0 ∨ m1 = deadStop1 then deadStop1 + accelFactor else m1
        { s with motorControl1 := m1 }
      else s
    else
      if s.motorControl2 > env.maxRevSpeed2 then
        let m2 := s.motorControl2 - accelFactor
        let m2 := if m2 = deadStop2 then deadStop2 - accelFactor else m2
        let m2 := if m2 < env.maxRevSpeed2 then env.maxRevSpeed2 else m2
        { s with motorControl2 := m2 }
      else s

/-- `decelerateFunction`: each motor steps toward its center by
`decelFactor`, clamped exactly to center on overshoot (the two `if`
blocks per motor run in sequence, on the updated value). -/
def decelerateFunction (s : MachineState) : MachineState :=
  let m1 := s.motorControl1
  let m1 := if m1 > deadStop1 then
              (if m1 - decelFactor < deadStop1 then deadStop1 else m1 - decelFactor)
            else m1
  let m1 := if m1 < deadStop1 then
              (if m1 + decelFactor > deadStop1 then deadStop1 else m1 + decelFactor)
            else m1
  let m2 := s.motorControl2
  let m2 := if m2 > deadStop2 then
              (if m2 - decelFactor < deadStop2 then deadStop2 else m2 - decelFactor)
            else m2
  let m2 := if m2 < deadStop2 then
              (if m2 + decelFactor > deadStop2 then deadStop2 else m2 + decelFactor)
            else m2
  { s with motorControl1 := m1, motorControl2 := m2 }

/-- `buttonPressedFunction`: resets a zero command to its center, then
dispatches on the pressed pin (2 = e-stop to centers, 3 = forward,
4 = reverse, 5 = left, 6 = right) and unconditionally calls
`sendCommandFunction`. -/
def buttonPressedFunction (env : Env) (pin : Nat) (s : MachineState) :
    SendResult :=
  let s := if s.motorControl1 = 0 then { s with motorControl1 := deadStop1 } else s
  let s := if s.motorControl2 = 0 then { s with motorControl2 := deadStop2 } else s
  let s :=
    if pin = 2 then
      { s with motorControl1 := deadStop1, motorControl2 := deadStop2 }
    else if pin = 3 then accelerateForward env s
    else if pin = 4 then accelerateReverse env s
    else if pin = 5 then leftButtonPressed env s
    else if pin = 6 then rightButtonPressed env s
    else s
  sendCommandFunction env s

/-- The raw-speed/direction recomputation in the middle of `loop`: when
both commands sit at 0 or at their centers the raw speeds are zeroed (the
directions are left stale); otherwise the raw speeds are the absolute
distances from center stored into `byte` globals and the directions are
set to the char `'1'` (49) at-or-above center, with below-center encoded
as the char `'0'` (48) for motor 1 but the integer 0 for motor 2. -/
def computeRawSpeeds (s : MachineState) : MachineState :=
  if (s.motorControl1 = 0 ∨ s.motorControl1 = deadStop1) ∧
     (s.motorControl2 = 0 ∨ s.motorControl2 = deadStop2) then
    { s with rawSpeed1 := 0, rawSpeed2 := 0 }
  else
    { s with
      rawSpeed1 := toByte (intAbs (deadStop1 - s.motorControl1))
      rawSpeed2 := toByte (intAbs (deadStop2 - s.motorControl2))
      direction1 := if s.motorControl1 ≥ deadStop1 then 49 else 48
      direction2 := if s.motorControl2 ≥ deadStop2 then 49 else 0 }

/-- The polling loop over pins 2..6: the first pressed pin wins (so the
e-stop on pin 2 always has priority) and the loop breaks; when no pin is
pressed the loop terminates with the global `buttonPinNumber` equal to 7. -/
def firstPressedPin (pressed : Nat → Bool) : Option Nat :=
  if pressed 2 then some 2
  else if pressed 3 then some 3
  else if pressed 4 then some 4
  else if pressed 5 then some 5
  else if pressed 6 then some 6
  else none

/-- The latch bookkeeping at the top of `loop`: outside beginner mode the
indicator resets to 0; in beginner mode a positive indicator is
decremented. -/
def latchPhase (s : MachineState) : MachineState :=
  let s := if s.beginnerMode = false then { s with buttonPressedIndicator := 0 } else s
  if s.beginnerMode = true ∧ s.buttonPressedIndicator > 0 then
    { s with buttonPressedIndicator := s.buttonPressedIndicator - 1 }
  else s

/-- The polling loop: the first pressed pin (2..6) sets the latch
indicator (incremented outside beginner mode, set to the latch delay in
beginner mode), records the pin in the global, and dispatches to
`buttonPressedFunction`; with no pressed pin the loop falls through with
the global left at 7. -/
def pollPhase (env : Env) (pressed : Nat → Bool) (s : MachineState) :
    MachineState × List (Nat × Nat) :=
  match firstPressedPin pressed with
  | some pin =>
      let s := if s.beginnerMode = false then
                 { s with buttonPressedIndicator := s.buttonPressedIndicator + 1
                        , buttonPinNumber := pin }
               else
                 { s with buttonPressedIndicator := beginnerModeDelay
                        , buttonPinNumber := pin }
      let r := buttonPressedFunction env pin s
      (r.state, [emitted r])
  | none => ({ s with buttonPinNumber := 7 }, ([] : List (Nat × Nat)))

/-- The `buttonPressedIndicator == 0` block at the bottom of `loop`: both
commands pinned to their centers when already stopped, otherwise a
decelerate step. -/
def idleUpdate (s : MachineState) : MachineState :=
  if (s.motorControl1 = 0 ∨ s.motorControl1 = deadStop1) ∧
     (s.motorControl2 = 0 ∨ s.motorControl2 = deadStop2) then
    { s with motorControl1 := deadStop1, motorControl2 := deadStop2 }
  else decelerateFunction s

/-- One iteration of `loop`: recompute the governor bounds and trim, reset
or decrement the beginner latch, poll the buttons (dispatching to
`buttonPressedFunction` for the first pressed pin), recompute raw speeds
and directions, and, when the latch counter is zero, decelerate (or pin
both commands to their centers) and send.  The returned list holds the
byte pairs transmitted during the tick, in order. -/
def tick (pot0 pot2 : Int) (pressed : Nat → Bool) (s : MachineState) :
    MachineState × List (Nat × Nat) :=
  let env := computeEnv pot0 pot2
  let polled := pollPhase env pressed (latchPhase s)
  let s := computeRawSpeeds polled.1
  if s.buttonPressedIndicator = 0 then
    let r := sendCommandFunction env (idleUpdate s)
    (r.state, polled.2 ++ [emitted r])
  else (s, polled.2)

/-- The state after `setup`: both commands at center, raw speeds zero,
directions at their initial value 1, latch counter zero, and the
zero-initialised global `buttonPinNumber`; the beginner switch is read
once at boot. -/
def initialState (beginner : Bool) : MachineState :=
  { motorControl1 := deadStop1
  , motorControl2 := deadStop2
  , rawSpeed1 := 0
  , rawSpeed2 := 0
  , direction1 := 1
  , direction2 := 1
  , buttonPressedIndicator := 0
  , buttonPinNumber := 0
  , beginnerMode := beginner }

/-- Input with exactly one pressed button. -/
def press (p : Nat) : Nat → Bool := fun q => q == p

/-- Input with no pressed button. -/
def pressNone : Nat → Bool := fun _ => false

/-- The governor invariants that hold for every throttle reading: each
reverse floor sits strictly below its motor's center and each forward
ceiling strictly above, inside the motor's absolute range. -/
def BoundsOK (env : Env) : Prop :=
  1 ≤ env.maxRevSpeed1 ∧ env.maxRevSpeed1 ≤ 63 ∧
  65 ≤ env.maxFwdSpeed1 ∧ env.maxFwdSpeed1 ≤ 127 ∧
  128 ≤ env.maxRevSpeed2 ∧ env.maxRevSpeed2 ≤ 191 ∧
  193 ≤ env.maxFwdSpeed2 ∧ env.maxFwdSpeed2 ≤ 255

/-- The `speedDifference` computed at the top of `accelerateForward`. -/
def speedDiff (env : Env) (s : MachineState) : Int :=
  intAbs ((env.maxFwdSpeed1 - s.motorControl1) -
          (env.maxFwdSpeed2 - s.motorControl2))

/-- A state-machine update step avoids the centers on every motor value it
modifies: if the update changed a motor command, the new value is not that
motor's center. -/
def SteppedAvoidsCenters (f : MachineState → MachineState) (s : MachineState) : Prop :=
  ((f s).motorControl1 ≠ s.motorControl1 → (f s).motorControl1 ≠ deadStop1) ∧
  ((f s).motorControl2 ≠ s.motorControl2 → (f s).motorControl2 ≠ deadStop2)

/-- Modelled from the spec: Forward and Reverse are "symmetric, mirrored
sign conventions" — the mirror image of a state reflects each motor
command about its own center. -/
def mirrorState (s : MachineState) : MachineState :=
  { s with motorControl1 := 2 * deadStop1 - s.motorControl1
         , motorControl2 := 2 * deadStop2 - s.motorControl2 }

/-- Modelled from the spec: the mirror image of the governor bounds swaps
each motor's forward ceiling and reverse floor, reflected about the
motor's center. -/
def mirrorEnv (env : Env) : Env :=
  { env with maxFwdSpeed1 := 2 * deadStop1 - env.maxRevSpeed1
           , maxRevSpeed1 := 2 * deadStop1 - env.maxFwdSpeed1
           , maxFwdSpeed2 := 2 * deadStop2 - env.maxRevSpeed2
           , maxRevSpeed2 := 2 * deadStop2 - env.maxFwdSpeed2 }

/-- The `(direction1 != direction2) or (rawSpeed1 == 0)` branch of
`leftButtonPressed`, as its own function for branch-selection theorems. -/
def leftPivotBranch (env : Env) (s : MachineState) : MachineState :=
  let m1 := s.motorControl1 - accelFactor
  let m2 := s.motorControl2 + accelFactor
  let m1 := if m1 = deadStop1 then deadStop1 - accelFactor else m1
  let m1 := if m1 < env.maxRevSpeed1 then env.maxRevSpeed1 else m1
  let m2 := if m2 = deadStop2 then deadStop2 + accelFactor else m2
  let m2 := if m2 > env.maxFwdSpeed2 then env.maxFwdSpeed2 else m2
  { s with motorControl1 := m1, motorControl2 := m2 }

/-- The `(direction1 != direction2) or (rawSpeed1 == 0)` branch of
`rightButtonPressed`, as its own function for branch-selection theorems. -/
def rightPivotBranch (env : Env) (s : MachineState) : MachineState :=
  if s.motorControl1 < env.maxFwdSpeed1 then
    let m1 := s.motorControl1 + accelFactor
    let m2 := s.motorControl2 - accelFactor
    let m1 := if m1 = 0 ∨ m1 = deadStop1 then deadStop1 + accelFactor else m1
    let m2 := if m2 = 0 ∨ m2 = deadStop2 then deadStop2 - accelFactor else m2
    { s with motorControl1 := m1, motorControl2 := m2 }
  else s

/-- Throttle-at-minimum bounds (`pot0 = 0`), trim centered. -/
def probeEnvLow : Env := computeEnv 0 512

/-- Full-throttle bounds (`pot0 = 1023`), trim centered. -/
def probeEnvHigh : Env := computeEnv 1023 512

/-- A state decelerating through the forward region of both motors:
motor 1 at full reverse, motor 2 one accel step under its forward
ceiling, raw speeds 63 and 62, directions `'0'` and `'1'`. -/
def leftClampProbeState : MachineState :=
  { motorControl1 := 1
  , motorControl2 := 254
  , rawSpeed1 := 63
  , rawSpeed2 := 62
  , direction1 := 48
  , direction2 := 49
  , buttonPressedIndicator := 1
  , buttonPinNumber := 5
  , beginnerMode := false }

/-- A state moving straight forward at equal raw speeds (100 and 228 sit
36 counts above both centers), as reached while a Reverse request starts
decelerating the device. -/
def reverseProbeState : MachineState :=
  { motorControl1 := 100
  , motorControl2 := 228
  , rawSpeed1 := 36
  , rawSpeed2 := 36
  , direction1 := 49
  , direction2 := 49
  , buttonPressedIndicator := 1
  , buttonPinNumber := 4
  , beginnerMode := false }

/-- A state moving while both commands sit below their centers. -/
def belowCenterProbeState : MachineState :=
  { motorControl1 := 40
  , motorControl2 := 150
  , rawSpeed1 := 24
  , rawSpeed2 := 42
  , direction1 := 48
  , direction2 := 0
  , buttonPressedIndicator := 1
  , buttonPinNumber := 5
  , beginnerMode := false }

/-- A non-center state from which the e-stop witness starts. -/
def estopProbeState : MachineState :=
  { motorControl1 := 100
  , motorControl2 := 140
  , rawSpeed1 := 36
  , rawSpeed2 := 52
  , direction1 := 49
  , direction2 := 0
  , buttonPressedIndicator := 0
  , buttonPinNumber := 3
  , beginnerMode := false }

/-! ## Theorems -/

/-- Claim C2 (code bug): in the `rawSpeed1 > rawSpeed2` branch of
`leftButtonPressed`, motor 2 steps toward its forward ceiling (254 → 256
against ceiling 255), but the overspeed clamp assigns `maxRevSpeed2`:
the command jumps from 254 to 128, the reverse floor, crossing center 192
— instead of being clamped to the forward ceiling 255. -/
theorem c2_left_pivot_clamp_bug :
    leftClampProbeState.motorControl2 = 254 ∧
    leftClampProbeState.rawSpeed2 < leftClampProbeState.rawSpeed1 ∧
    probeEnvHigh.maxFwdSpeed2 = 255 ∧
    probeEnvHigh.maxRevSpeed2 = 128 ∧
    (leftButtonPressed probeEnvHigh leftClampProbeState).motorControl2 = 128 := by
  refine ⟨rfl, by decide, by decide, by decide, by decide⟩

/-- Claim C5 (code bug): `accelerateReverse` is not the structural mirror
of `accelerateForward`.  At minimum-throttle bounds with both motors 36
counts above center (state `(100, 228)`), the code compares
`motorControl1 > deadStop2` (motor 2's center, 192) and therefore steps
motor 1 by the accel increment to 98, while the mirrored image of
`accelerateForward` on the mirrored state uses the decel increment (motor
1 sits above its own center 64, traversing the center region) and yields
96. -/
theorem c5_reverse_not_mirror :
    (accelerateReverse probeEnvLow reverseProbeState).motorControl1 = 98 ∧
    (mirrorState (accelerateForward (mirrorEnv probeEnvLow)
        (mirrorState reverseProbeState))).motorControl1 = 96 ∧
    (accelerateReverse probeEnvLow reverseProbeState).motorControl1 ≠
      (mirrorState (accelerateForward (mirrorEnv probeEnvLow)
          (mirrorState reverseProbeState))).motorControl1 := by
  refine ⟨by decide, by decide, by decide⟩

/-- Claim C6 (counterexample): a beginner-mode tick with no button
pressed and latch counter 5 transmits no command pair at all — the claim
that exactly one CommandEncoder invocation and one transmitted pair occur
on every such tick is false. -/
theorem c6_latch_tick_sends_nothing :
    (tick 512 512 pressNone
      { initialState true with buttonPressedIndicator := 5 }).2 = [] := by
  decide

/-- Claim C3 (counterexample): a reachable five-tick run —
three Reverse ticks at throttle 65 (reaching `(60, 187)`), one idle tick
(deceleration reaches `(64, 191)`), then a Forward tick at full throttle
— ends the Forward tick with `motorControl1 = 64`, motor 1's center,
persisted: the convergence-correction snap moved motor 2 onto its center
(191 → 192) without a dead-spot skip, the fall-through branch then
stepped motor 2 again, and motor 1 was left sitting on its center. -/
theorem c3_snap_lands_on_center :
    (tick 1023 512 (press 3)
      ((tick 65 512 pressNone
        ((fun s => (tick 65 512 (press 4) s).1)^[3]
          (initialState false))).1)).1.motorControl1 = deadStop1 ∧
    (tick 1023 512 (press 3)
      ((tick 65 512 pressNone
        ((fun s => (tick 65 512 (press 4) s).1)^[3]
          (initialState false))).1)).1.motorControl2 = 194 := by
  refine ⟨by decide, by decide⟩

/-- Claim C1 (counterexample): a reachable run — 32 Forward ticks at full
throttle (reaching `(127, 255)`), then one Reverse tick with the trim pot
at 0 (trim −6) — transmits the byte 131 for motor 1 on the reverse tick:
the trim correction is added after the range clamp and pushes the emitted
byte outside `[1,127]`. -/
theorem c1_trim_breaks_range :
    (tick 1023 0 (press 4)
      ((fun s => (tick 1023 512 (press 3) s).1)^[32]
        (initialState false))).2 = [(131, 251)] ∧ ¬((131 : Nat) ≤ 127) := by
  have e : (32 : Nat) = 8 + (8 + (8 + 8)) := rfl
  have a1 : (fun s => (tick 1023 512 (press 3) s).1)^[8] (initialState false) =
      (⟨80, 208, 16, 16, 49, 49, 1, 3, false⟩ : MachineState) := by decide
  have a2 : (fun s => (tick 1023 512 (press 3) s).1)^[8]
      (⟨80, 208, 16, 16, 49, 49, 1, 3, false⟩ : MachineState) =
      (⟨96, 224, 32, 32, 49, 49, 1, 3, false⟩ : MachineState) := by decide
  have a3 : (fun s => (tick 1023 512 (press 3) s).1)^[8]
      (⟨96, 224, 32, 32, 49, 49, 1, 3, false⟩ : MachineState) =
      (⟨112, 240, 48, 48, 49, 49, 1, 3, false⟩ : MachineState) := by decide
  have a4 : (fun s => (tick 1023 512 (press 3) s).1)^[8]
      (⟨112, 240, 48, 48, 49, 49, 1, 3, false⟩ : MachineState) =
      (⟨127, 255, 63, 63, 49, 49, 1, 3, false⟩ : MachineState) := by decide
  rw [e, Function.iterate_add_apply, Function.iterate_add_apply,
    Function.iterate_add_apply, a1, a2, a3, a4]
  refine ⟨by decide, by decide⟩

/-- Claim C4 (counterexample): a reachable run — four PivotRight ticks
then four Forward ticks, all at full throttle with the trim pot at 1023
(trim +6) — ends with persisted `motorControl2 = 194` (above center 192)
while the trim-adjusted emitted byte for motor 2 is 188, below center:
the trim adjustment crossed motor 2's center, because the gate only
checks motor 1's recorded raw speed. -/
theorem c4_trim_crosses_center :
    (tick 1023 1023 (press 3)
      ((fun s => (tick 1023 1023 (press 3) s).1)^[3]
        ((fun s => (tick 1023 1023 (press 6) s).1)^[4]
          (initialState false)))).2 = [(72, 188)] ∧
    (tick 1023 1023 (press 3)
      ((fun s => (tick 1023 1023 (press 3) s).1)^[3]
        ((fun s => (tick 1023 1023 (press 6) s).1)^[4]
          (initialState false)))).1.motorControl2 = 194 ∧
    (188 : Int) < deadStop2 ∧ deadStop2 < 194 := by
  refine ⟨by decide, by decide, by decide, by decide⟩

/-- Claim C9: the trim block of `sendCommandFunction` modifies only the
emitted byte pair; the persisted state equals the prior state with the
two motor commands clamped into their wire ranges, with no dependence on
the trim adjustment and every other field unchanged. -/
theorem c9_trim_not_persisted (env : Env) (s : MachineState) :
    (sendCommandFunction env s).state =
      { s with motorControl1 := min 127 (max 1 s.motorControl1)
             , motorControl2 := min 255 (max 128 s.motorControl2) } := by
  simp only [sendCommandFunction, MachineState.mk.injEq, eq_self_iff_true,
    and_true, true_and]
  constructor <;> (split_ifs <;> omega)

/-- Helper: `sendCommandFunction` leaves the latch counter unchanged. -/
theorem sendCommand_keeps_indicator (env : Env) (s : MachineState) :
    (sendCommandFunction env s).state.buttonPressedIndicator =
      s.buttonPressedIndicator := by
  simp [sendCommandFunction]

/-- Helper: every state-machine dispatch leaves the latch counter
unchanged, so `buttonPressedFunction` does too. -/
theorem buttonPressed_keeps_indicator (env : Env) (pin : Nat) (s : MachineState) :
    (buttonPressedFunction env pin s).state.buttonPressedIndicator =
      s.buttonPressedIndicator := by
  simp only [buttonPressedFunction, sendCommand_keeps_indicator]
  simp [accelerateForward, accelerateReverse, leftButtonPressed,
    rightButtonPressed, apply_ite (f := MachineState.buttonPressedIndicator)]

/-- Helper: the raw-speed recomputation leaves the latch counter, the
motor commands and the mode flag unchanged. -/
theorem computeRawSpeeds_frame (s : MachineState) :
    (computeRawSpeeds s).buttonPressedIndicator = s.buttonPressedIndicator ∧
    (computeRawSpeeds s).motorControl1 = s.motorControl1 ∧
    (computeRawSpeeds s).motorControl2 = s.motorControl2 ∧
    (computeRawSpeeds s).beginnerMode = s.beginnerMode := by
  simp [computeRawSpeeds, apply_ite (f := MachineState.buttonPressedIndicator),
    apply_ite (f := MachineState.motorControl1),
    apply_ite (f := MachineState.motorControl2),
    apply_ite (f := MachineState.beginnerMode)]

/-- Helper: `decelerateFunction` changes only the motor commands. -/
theorem decelerateFunction_frame (s : MachineState) :
    (decelerateFunction s).buttonPressedIndicator = s.buttonPressedIndicator ∧
    (decelerateFunction s).beginnerMode = s.beginnerMode := by
  simp [decelerateFunction]

/-- Helper: the persisted state left by `sendCommandFunction` is the
input state with the two motor commands clamped into their wire ranges;
no other field, and in particular no dependence on the trim value. -/
theorem sendCommandFunction_state (env : Env) (s : MachineState) :
    (sendCommandFunction env s).state =
      { s with motorControl1 := min 127 (max 1 s.motorControl1)
             , motorControl2 := min 255 (max 128 s.motorControl2) } := by
  simp only [sendCommandFunction, MachineState.mk.injEq, eq_self_iff_true,
    and_true, true_and]
  constructor <;> (split_ifs <;> omega)

/-- Helper: `decelerateFunction` on each motor is a step toward center
clamped at center. -/
theorem decelerateFunction_eq (s : MachineState) :
    (decelerateFunction s).motorControl1 =
      (if deadStop1 < s.motorControl1 then
        max deadStop1 (s.motorControl1 - decelFactor)
       else if s.motorControl1 < deadStop1 then
        min deadStop1 (s.motorControl1 + decelFactor)
       else s.motorControl1) ∧
    (decelerateFunction s).motorControl2 =
      (if deadStop2 < s.motorControl2 then
        max deadStop2 (s.motorControl2 - decelFactor)
       else if s.motorControl2 < deadStop2 then
        min deadStop2 (s.motorControl2 + decelFactor)
       else s.motorControl2) := by
  simp only [decelerateFunction, deadStop1, deadStop2, decelFactor]
  constructor <;> (split_ifs <;> omega)

/-- Claim C7: whenever the e-stop input (pin 2) is active on a tick, both
persisted motor commands equal their centers at the end of that tick,
whatever the prior state, throttle, trim, or other concurrently pressed
buttons — pin 2 is polled first and wins. -/
theorem c7_estop_resets (pot0 pot2 : Int) (pressed : Nat → Bool)
    (s : MachineState) (h : pressed 2 = true) :
    (tick pot0 pot2 pressed s).1.motorControl1 = deadStop1 ∧
    (tick pot0 pot2 pressed s).1.motorControl2 = deadStop2 := by
  have hp : firstPressedPin pressed = some 2 := by simp [firstPressedPin, h]
  have key : ∀ (env : Env) (s3 : MachineState),
      (pollPhase env pressed s3).1.motorControl1 = deadStop1 ∧
      (pollPhase env pressed s3).1.motorControl2 = deadStop2 := by
    intro env s3
    simp [pollPhase, hp, buttonPressedFunction, sendCommandFunction,
      deadStop1, deadStop2]
  obtain ⟨k1, k2⟩ := key (computeEnv pot0 pot2) (latchPhase s)
  obtain ⟨f0, f1, f2, f3⟩ :=
    computeRawSpeeds_frame (pollPhase (computeEnv pot0 pot2) pressed (latchPhase s)).1
  have g1 : (computeRawSpeeds
      (pollPhase (computeEnv pot0 pot2) pressed (latchPhase s)).1).motorControl1 =
      deadStop1 := f1.trans k1
  have g2 : (computeRawSpeeds
      (pollPhase (computeEnv pot0 pot2) pressed (latchPhase s)).1).motorControl2 =
      deadStop2 := f2.trans k2
  simp only [tick]
  generalize hu : computeRawSpeeds
    (pollPhase (computeEnv pot0 pot2) pressed (latchPhase s)).1 = u at g1 g2 ⊢
  split_ifs with hi
  · have e : idleUpdate u =
        { u with motorControl1 := deadStop1, motorControl2 := deadStop2 } := by
      simp [idleUpdate, g1, g2, deadStop1, deadStop2]
    rw [sendCommandFunction_state, e]
    constructor <;> (dsimp; simp only [deadStop1, deadStop2]; omega)
  · exact ⟨g1, g2⟩

/-- Helper: one idle tick (no button, full throttle, centered trim) from
a state with motor 1 in the forward region and motor 2 at its center
moves motor 1 toward its center by exactly the decel increment, clamped
at center, and leaves motor 2 at its center. -/
theorem idle_tick_step (s : MachineState) (hb : s.beginnerMode = false)
    (hlo : deadStop1 ≤ s.motorControl1) (hhi : s.motorControl1 ≤ 127)
    (h2 : s.motorControl2 = deadStop2) :
    (tick 1023 512 pressNone s).1.motorControl1 =
      max deadStop1 (s.motorControl1 - decelFactor) ∧
    (tick 1023 512 pressNone s).1.motorControl2 = deadStop2 ∧
    (tick 1023 512 pressNone s).1.beginnerMode = false := by
  have hp : firstPressedPin pressNone = none := rfl
  have e0 : latchPhase s = { s with buttonPressedIndicator := 0 } := by
    simp [latchPhase, hb]
  have e1 : pollPhase (computeEnv 1023 512) pressNone (latchPhase s) =
      ({ s with buttonPressedIndicator := 0, buttonPinNumber := 7 },
        ([] : List (Nat × Nat))) := by
    rw [e0]; simp [pollPhase, hp]
  obtain ⟨f0, f1, f2, f3⟩ :=
    computeRawSpeeds_frame ({ s with buttonPressedIndicator := 0, buttonPinNumber := 7 })
  have g0 : (computeRawSpeeds
      ({ s with buttonPressedIndicator := 0, buttonPinNumber := 7 })).buttonPressedIndicator =
      0 := f0.trans rfl
  have g1 : (computeRawSpeeds
      ({ s with buttonPressedIndicator := 0, buttonPinNumber := 7 })).motorControl1 =
      s.motorControl1 := f1.trans rfl
  have g2 : (computeRawSpeeds
      ({ s with buttonPressedIndicator := 0, buttonPinNumber := 7 })).motorControl2 =
      deadStop2 := f2.trans h2
  have g3 : (computeRawSpeeds
      ({ s with buttonPressedIndicator := 0, buttonPinNumber := 7 })).beginnerMode =
      false := f3.trans hb
  simp only [tick, e1]
  generalize hu : computeRawSpeeds
    ({ s with buttonPressedIndicator := 0, buttonPinNumber := 7 }) = u at g0 g1 g2 g3 ⊢
  rw [if_pos g0, sendCommandFunction_state]
  obtain ⟨d0, d1⟩ := decelerateFunction_frame u
  have dd := decelerateFunction_eq u
  by_cases hC : s.motorControl1 = deadStop1
  · have e2 : idleUpdate u =
        { u with motorControl1 := deadStop1, motorControl2 := deadStop2 } := by
      simp [idleUpdate, g1, g2, hC, deadStop1, deadStop2]
    rw [e2]
    refine ⟨?_, ?_, ?_⟩
    · dsimp; simp only [deadStop1, decelFactor] at hC ⊢; omega
    · dsimp; simp only [deadStop2]; omega
    · dsimp; exact g3
  · have hne : ¬((u.motorControl1 = 0 ∨ u.motorControl1 = deadStop1) ∧
        (u.motorControl2 = 0 ∨ u.motorControl2 = deadStop2)) := by
      rw [g1]
      simp only [deadStop1] at hC hlo ⊢
      omega
    have e2 : idleUpdate u = decelerateFunction u := by
      simp [idleUpdate, hne]
    rw [e2]
    refine ⟨?_, ?_, ?_⟩
    · dsimp
      rw [dd.1, g1]
      simp only [deadStop1, decelFactor] at hC hlo hhi ⊢
      split_ifs <;> omega
    · dsimp
      rw [dd.2, g2]
      simp only [deadStop2, decelFactor]
      split_ifs <;> omega
    · dsimp
      exact d1.trans g3

/-- Claim C8: `decelerateFunction` moves each motor's persisted command
toward its center by exactly the decel increment, independently per
motor, clamping a step that would overshoot exactly to center; and from
motor 1 at 100 (center 64, decel increment 4), repeated idle ticks give
100, 96, 92, ..., 68, 64 and then 64 forever. -/
theorem c8_decelerate_toward_center :
    (∀ s : MachineState,
      (decelerateFunction s).motorControl1 =
        (if deadStop1 < s.motorControl1 then
          max deadStop1 (s.motorControl1 - decelFactor)
         else if s.motorControl1 < deadStop1 then
          min deadStop1 (s.motorControl1 + decelFactor)
         else s.motorControl1) ∧
      (decelerateFunction s).motorControl2 =
        (if deadStop2 < s.motorControl2 then
          max deadStop2 (s.motorControl2 - decelFactor)
         else if s.motorControl2 < deadStop2 then
          min deadStop2 (s.motorControl2 + decelFactor)
         else s.motorControl2)) ∧
    (∀ k : Nat,
      ((fun st => (tick 1023 512 pressNone st).1)^[k]
          { initialState false with motorControl1 := 100 }).motorControl1 =
        max deadStop1 (100 - decelFactor * k)) := by
  refine ⟨fun s => decelerateFunction_eq s, ?_⟩
  have main : ∀ k : Nat,
      ((fun st => (tick 1023 512 pressNone st).1)^[k]
          { initialState false with motorControl1 := 100 }).motorControl1 =
        max deadStop1 (100 - decelFactor * k) ∧
      ((fun st => (tick 1023 512 pressNone st).1)^[k]
          { initialState false with motorControl1 := 100 }).motorControl2 =
        deadStop2 ∧
      ((fun st => (tick 1023 512 pressNone st).1)^[k]
          { initialState false with motorControl1 := 100 }).beginnerMode =
        false := by
    intro k
    induction k with
    | zero =>
      refine ⟨?_, rfl, rfl⟩
      simp only [Function.iterate_zero, id_eq, initialState, deadStop1, decelFactor]
      omega
    | succ n ih =>
      obtain ⟨i1, i2, i3⟩ := ih
      have hlo : deadStop1 ≤
          ((fun st => (tick 1023 512 pressNone st).1)^[n]
            { initialState false with motorControl1 := 100 }).motorControl1 := by
        rw [i1]; simp only [deadStop1, decelFactor]; omega
      have hhi : ((fun st => (tick 1023 512 pressNone st).1)^[n]
            { initialState false with motorControl1 := 100 }).motorControl1 ≤
          127 := by
        rw [i1]; simp only [deadStop1, decelFactor]; omega
      obtain ⟨s1, s2, s3⟩ := idle_tick_step _ i3 hlo hhi i2
      rw [Function.iterate_succ_apply']
      refine ⟨?_, s2, s3⟩
      rw [s1, i1]
      simp only [deadStop1, decelFactor]
      push_cast
      omega
  exact fun k => (main k).1

/-- Claim C10: when both motor commands sit strictly below their centers
(and the commands are not both zero), the derived directions use
different encodings — `direction1` becomes the char `'0'` (48) while
`direction2` becomes the integer 0 — so they always compare as unequal,
and with equal raw speeds both pivot handlers take their
directions-differ branch. -/
theorem c10_direction_mismatch (env : Env) (s : MachineState)
    (h1 : s.motorControl1 < deadStop1) (h2 : s.motorControl2 < deadStop2)
    (h0 : ¬(s.motorControl1 = 0 ∧ s.motorControl2 = 0)) :
    (computeRawSpeeds s).direction1 = 48 ∧
    (computeRawSpeeds s).direction2 = 0 ∧
    (computeRawSpeeds s).direction1 ≠ (computeRawSpeeds s).direction2 ∧
    ((computeRawSpeeds s).rawSpeed1 = (computeRawSpeeds s).rawSpeed2 →
      leftButtonPressed env (computeRawSpeeds s) =
        leftPivotBranch env (computeRawSpeeds s) ∧
      rightButtonPressed env (computeRawSpeeds s) =
        rightPivotBranch env (computeRawSpeeds s)) := by
  have hcond : ¬((s.motorControl1 = 0 ∨ s.motorControl1 = deadStop1) ∧
      (s.motorControl2 = 0 ∨ s.motorControl2 = deadStop2)) := by
    simp only [deadStop1, deadStop2] at h1 h2 ⊢
    omega
  have e : computeRawSpeeds s = { s with
      rawSpeed1 := toByte (intAbs (deadStop1 - s.motorControl1))
      rawSpeed2 := toByte (intAbs (deadStop2 - s.motorControl2))
      direction1 := if s.motorControl1 ≥ deadStop1 then 49 else 48
      direction2 := if s.motorControl2 ≥ deadStop2 then 49 else 0 } := by
    simp [computeRawSpeeds, hcond]
  have d1 : (computeRawSpeeds s).direction1 = 48 := by
    rw [e]; dsimp; rw [if_neg (not_le.mpr h1)]
  have d2 : (computeRawSpeeds s).direction2 = 0 := by
    rw [e]; dsimp; rw [if_neg (not_le.mpr h2)]
  refine ⟨d1, d2, by rw [d1, d2]; decide, fun heq => ⟨?_, ?_⟩⟩
  · have hor : (computeRawSpeeds s).direction1 ≠ (computeRawSpeeds s).direction2 ∨
        (computeRawSpeeds s).rawSpeed1 = 0 := Or.inl (by rw [d1, d2]; decide)
    simp only [leftButtonPressed, if_pos heq, if_pos hor, leftPivotBranch]
  · have hor : (computeRawSpeeds s).direction1 ≠ (computeRawSpeeds s).direction2 ∨
        (computeRawSpeeds s).rawSpeed1 = 0 := Or.inl (by rw [d1, d2]; decide)
    simp only [rightButtonPressed, if_pos heq, if_pos hor, rightPivotBranch]

/-- Claim C1 (amended): after the clamp step of `sendCommandFunction`
the persisted commands always lie in `[1,127]` and `[128,255]`; the
emitted bytes also lie in those ranges whenever the trim gate fails
(`rawSpeed1 ≤ |trimAdjustment|`), and in general the emitted values can
leave the ranges by at most the trim sensitivity. -/
theorem c1_encoder_ranges (env : Env) (s : MachineState) :
    (1 ≤ (sendCommandFunction env s).state.motorControl1 ∧
     (sendCommandFunction env s).state.motorControl1 ≤ 127 ∧
     128 ≤ (sendCommandFunction env s).state.motorControl2 ∧
     (sendCommandFunction env s).state.motorControl2 ≤ 255) ∧
    ((s.rawSpeed1 : Int) ≤ intAbs env.trimAdjustment →
      1 ≤ (emitted (sendCommandFunction env s)).1 ∧
      (emitted (sendCommandFunction env s)).1 ≤ 127 ∧
      128 ≤ (emitted (sendCommandFunction env s)).2 ∧
      (emitted (sendCommandFunction env s)).2 ≤ 255) ∧
    (intAbs env.trimAdjustment ≤ trimSens →
      1 - trimSens ≤ (sendCommandFunction env s).motorByteRaw1 ∧
      (sendCommandFunction env s).motorByteRaw1 ≤ 127 + trimSens ∧
      128 - trimSens ≤ (sendCommandFunction env s).motorByteRaw2 ∧
      (sendCommandFunction env s).motorByteRaw2 ≤ 255 + trimSens) := by
  refine ⟨?_, fun hgate => ?_, fun htrim => ?_⟩
  · rw [sendCommandFunction_state]
    dsimp
    omega
  · have hno : ¬((s.rawSpeed1 : Int) > intAbs env.trimAdjustment) :=
      not_lt.mpr hgate
    simp only [sendCommandFunction, emitted, toByte, if_neg hno]
    split_ifs <;> omega
  · simp only [intAbs, trimSens] at htrim
    simp only [sendCommandFunction, intAbs, trimSens]
    dsimp
    split_ifs at htrim ⊢ <;> dsimp <;> omega

/-- Helper: the emitted motor 1 value of `sendCommandFunction` in terms
of the clamped command: the trim adjustment is added (forward, negative
trim) or subtracted (reverse, negative trim) only behind the
`rawSpeed1` gate. -/
theorem sendCommandFunction_byte1 (env : Env) (s : MachineState) :
    (sendCommandFunction env s).motorByteRaw1 =
      (if ((s.rawSpeed1 : Int) > intAbs env.trimAdjustment ∧
            s.buttonPinNumber = 3 ∧ env.trimAdjustment < 0) then
        min 127 (max 1 s.motorControl1) + env.trimAdjustment
       else if ((s.rawSpeed1 : Int) > intAbs env.trimAdjustment ∧
            s.buttonPinNumber = 4 ∧ env.trimAdjustment < 0) then
        min 127 (max 1 s.motorControl1) - env.trimAdjustment
       else min 127 (max 1 s.motorControl1)) := by
  simp only [sendCommandFunction]
  split_ifs <;> omega

/-- Claim C4 (amended): the trim adjustment is skipped entirely — the
emitted values equal the clamped persisted commands — whenever the
recorded `rawSpeed1` does not exceed `|trimAdjustment|`; and when the
recorded `rawSpeed1` agrees with the current clamped motor 1 command,
the trim-adjusted emitted value for motor 1 never crosses motor 1's
center.  (The gate checks only motor 1's recorded magnitude, so no such
guarantee exists for motor 2.) -/
theorem c4_trim_gate (env : Env) (s : MachineState) :
    ((s.rawSpeed1 : Int) ≤ intAbs env.trimAdjustment →
      (sendCommandFunction env s).motorByteRaw1 =
        (sendCommandFunction env s).state.motorControl1 ∧
      (sendCommandFunction env s).motorByteRaw2 =
        (sendCommandFunction env s).state.motorControl2) ∧
    ((s.rawSpeed1 : Int) =
        intAbs (deadStop1 - (sendCommandFunction env s).state.motorControl1) →
      (deadStop1 < (sendCommandFunction env s).state.motorControl1 →
        deadStop1 < (sendCommandFunction env s).motorByteRaw1) ∧
      ((sendCommandFunction env s).state.motorControl1 < deadStop1 →
        (sendCommandFunction env s).motorByteRaw1 < deadStop1) ∧
      ((sendCommandFunction env s).state.motorControl1 = deadStop1 →
        (sendCommandFunction env s).motorByteRaw1 = deadStop1)) := by
  constructor
  · intro hgate
    have hno : ¬((s.rawSpeed1 : Int) > intAbs env.trimAdjustment) :=
      not_lt.mpr hgate
    simp only [sendCommandFunction, if_neg hno]
    exact ⟨trivial, trivial⟩
  · intro hcur
    rw [sendCommandFunction_state] at hcur ⊢
    rw [sendCommandFunction_byte1]
    simp only [intAbs, deadStop1] at hcur ⊢
    refine ⟨fun ha => ?_, fun hb2 => ?_, fun hc => ?_⟩
    · split_ifs at hcur ha ⊢ <;> omega
    · split_ifs at hcur hb2 ⊢ <;> omega
    · split_ifs at hcur hc ⊢ <;> omega

/-- Helper for C3: `accelerateForward` outside the snap case never
leaves a modified motor 1 on its center. -/
theorem c3aux_fwd1 (env : Env) (s : MachineState)
    (b3 : 65 ≤ env.maxFwdSpeed1) (b4 : env.maxFwdSpeed1 ≤ 127)
    (hsd : speedDiff env s ≠ 1)
    (hch : (accelerateForward env s).motorControl1 ≠ s.motorControl1) :
    (accelerateForward env s).motorControl1 ≠ deadStop1 := by
  revert hch
  simp only [speedDiff] at hsd
  simp only [accelerateForward, apply_ite (f := MachineState.motorControl1),
    accelFactor, decelFactor, deadStop1, deadStop2]
  generalize hD : intAbs ((env.maxFwdSpeed1 - s.motorControl1) -
    (env.maxFwdSpeed2 - s.motorControl2)) = d at hsd ⊢
  have hd2 : 0 ≤ d ∧ (d = (env.maxFwdSpeed1 - s.motorControl1) -
      (env.maxFwdSpeed2 - s.motorControl2) ∨
      d = -((env.maxFwdSpeed1 - s.motorControl1) -
        (env.maxFwdSpeed2 - s.motorControl2))) := by
    rw [← hD]; simp only [intAbs]; split_ifs <;> omega
  obtain ⟨hd0, hd1⟩ := hd2
  split_ifs <;> (intro hch; omega)

/-- Helper for C3: `accelerateForward` outside the snap case never
leaves a modified motor 2 on its center. -/
theorem c3aux_fwd2 (env : Env) (s : MachineState)
    (b7 : 193 ≤ env.maxFwdSpeed2) (b8 : env.maxFwdSpeed2 ≤ 255)
    (hsd : speedDiff env s ≠ 1)
    (hch : (accelerateForward env s).motorControl2 ≠ s.motorControl2) :
    (accelerateForward env s).motorControl2 ≠ deadStop2 := by
  revert hch
  simp only [speedDiff] at hsd
  simp only [accelerateForward, apply_ite (f := MachineState.motorControl2),
    accelFactor, decelFactor, deadStop1, deadStop2]
  generalize hD : intAbs ((env.maxFwdSpeed1 - s.motorControl1) -
    (env.maxFwdSpeed2 - s.motorControl2)) = d at hsd ⊢
  have hd2 : 0 ≤ d ∧ (d = (env.maxFwdSpeed1 - s.motorControl1) -
      (env.maxFwdSpeed2 - s.motorControl2) ∨
      d = -((env.maxFwdSpeed1 - s.motorControl1) -
        (env.maxFwdSpeed2 - s.motorControl2))) := by
    rw [← hD]; simp only [intAbs]; split_ifs <;> omega
  obtain ⟨hd0, hd1⟩ := hd2
  split_ifs <;> (intro hch; omega)

/-- Helper for C3: `accelerateReverse` never leaves a modified motor 1 on
its center. -/
theorem c3aux_rev1 (env : Env) (s : MachineState)
    (b1 : 1 ≤ env.maxRevSpeed1) (b2 : env.maxRevSpeed1 ≤ 63)
    (hch : (accelerateReverse env s).motorControl1 ≠ s.motorControl1) :
    (accelerateReverse env s).motorControl1 ≠ deadStop1 := by
  revert hch
  simp only [accelerateReverse, apply_ite (f := MachineState.motorControl1),
    accelFactor, decelFactor, deadStop1, deadStop2]
  split_ifs <;> (intro hch; omega)

/-- Helper for C3: `accelerateReverse` never leaves a modified motor 2 on
its center. -/
theorem c3aux_rev2 (env : Env) (s : MachineState)
    (b5 : 128 ≤ env.maxRevSpeed2) (b6 : env.maxRevSpeed2 ≤ 191)
    (hch : (accelerateReverse env s).motorControl2 ≠ s.motorControl2) :
    (accelerateReverse env s).motorControl2 ≠ deadStop2 := by
  revert hch
  simp only [accelerateReverse, apply_ite (f := MachineState.motorControl2),
    accelFactor, decelFactor, deadStop1, deadStop2]
  split_ifs <;> (intro hch; omega)

/-- Helper for C3: `leftButtonPressed` never leaves a modified motor 1 on
its center. -/
theorem c3aux_left1 (env : Env) (s : MachineState)
    (b1 : 1 ≤ env.maxRevSpeed1) (b2 : env.maxRevSpeed1 ≤ 63)
    (hch : (leftButtonPressed env s).motorControl1 ≠ s.motorControl1) :
    (leftButtonPressed env s).motorControl1 ≠ deadStop1 := by
  revert hch
  simp only [leftButtonPressed, apply_ite (f := MachineState.motorControl1),
    accelFactor, decelFactor, deadStop1, deadStop2]
  split_ifs <;> (intro hch; omega)

/-- Helper for C3: `leftButtonPressed` never leaves a modified motor 2 on
its center (in its buggy clamp branch the assigned reverse floor is below
center as well). -/
theorem c3aux_left2 (env : Env) (s : MachineState)
    (b5 : 128 ≤ env.maxRevSpeed2) (b6 : env.maxRevSpeed2 ≤ 191)
    (b7 : 193 ≤ env.maxFwdSpeed2) (b8 : env.maxFwdSpeed2 ≤ 255)
    (hch : (leftButtonPressed env s).motorControl2 ≠ s.motorControl2) :
    (leftButtonPressed env s).motorControl2 ≠ deadStop2 := by
  revert hch
  simp only [leftButtonPressed, apply_ite (f := MachineState.motorControl2),
    accelFactor, decelFactor, deadStop1, deadStop2]
  split_ifs <;> (intro hch; omega)

/-- Helper for C3: `rightButtonPressed` never leaves a modified motor 1
on its center. -/
theorem c3aux_right1 (env : Env) (s : MachineState)
    (b3 : 65 ≤ env.maxFwdSpeed1) (b4 : env.maxFwdSpeed1 ≤ 127)
    (hch : (rightButtonPressed env s).motorControl1 ≠ s.motorControl1) :
    (rightButtonPressed env s).motorControl1 ≠ deadStop1 := by
  revert hch
  simp only [rightButtonPressed, apply_ite (f := MachineState.motorControl1),
    accelFactor, decelFactor, deadStop1, deadStop2]
  split_ifs <;> (intro hch; omega)

/-- Helper for C3: `rightButtonPressed` never leaves a modified motor 2
on its center. -/
theorem c3aux_right2 (env : Env) (s : MachineState)
    (b5 : 128 ≤ env.maxRevSpeed2) (b6 : env.maxRevSpeed2 ≤ 191)
    (hch : (rightButtonPressed env s).motorControl2 ≠ s.motorControl2) :
    (rightButtonPressed env s).motorControl2 ≠ deadStop2 := by
  revert hch
  simp only [rightButtonPressed, apply_ite (f := MachineState.motorControl2),
    accelFactor, decelFactor, deadStop1, deadStop2]
  split_ifs <;> (intro hch; omega)

/-- Claim C3 (amended): under the governor invariants, every motor value
actually modified by `accelerateForward` outside the convergence-snap
case (`speedDifference = 1`), by `accelerateReverse`, or by either pivot
handler ends different from that motor's center: each such ramp step is
followed by a dead-spot skip and the clamps never equal a center.  (The
convergence snap itself has no skip and can land a motor exactly on its
center, and a motor the update leaves untouched can stay at its center;
see the counterexample.) -/
theorem c3_steps_avoid_centers (env : Env) (s : MachineState)
    (hb : BoundsOK env) :
    (speedDiff env s ≠ 1 → SteppedAvoidsCenters (accelerateForward env) s) ∧
    SteppedAvoidsCenters (accelerateReverse env) s ∧
    SteppedAvoidsCenters (leftButtonPressed env) s ∧
    SteppedAvoidsCenters (rightButtonPressed env) s := by
  obtain ⟨b1, b2, b3, b4, b5, b6, b7, b8⟩ := hb
  exact ⟨fun hsd => ⟨c3aux_fwd1 env s b3 b4 hsd, c3aux_fwd2 env s b7 b8 hsd⟩,
    ⟨c3aux_rev1 env s b1 b2, c3aux_rev2 env s b5 b6⟩,
    ⟨c3aux_left1 env s b1 b2, c3aux_left2 env s b5 b6 b7 b8⟩,
    ⟨c3aux_right1 env s b3 b4, c3aux_right2 env s b5 b6⟩⟩

/-- Helper: outside beginner mode the latch phase just clears the
indicator. -/
theorem latchPhase_false (s : MachineState) (hb : s.beginnerMode = false) :
    latchPhase s = { s with buttonPressedIndicator := 0 } := by
  simp [latchPhase, hb]

/-- Helper: in beginner mode the latch phase decrements the indicator
(with truncated subtraction). -/
theorem latchPhase_true (s : MachineState) (hb : s.beginnerMode = true) :
    latchPhase s =
      { s with buttonPressedIndicator := s.buttonPressedIndicator - 1 } := by
  simp only [latchPhase, hb]
  simp only [Bool.true_eq_false, if_false, true_and]
  split_ifs with h
  · rw [hb]
  · obtain ⟨m1, m2, r1, r2, d1, d2, ind, pin, bm⟩ := s
    simp_all

/-- Helper: with no pressed pin the polling phase only sets the global
pin number to 7 and transmits nothing. -/
theorem pollPhase_none_props (env : Env) (pressed : Nat → Bool)
    (s : MachineState) (hp : firstPressedPin pressed = none) :
    pollPhase env pressed s = ({ s with buttonPinNumber := 7 },
      ([] : List (Nat × Nat))) := by
  simp [pollPhase, hp]

/-- Helper: with a pressed pin the polling phase transmits exactly one
byte pair and leaves the indicator at its incremented value (or the
latch delay in beginner mode). -/
theorem pollPhase_some_props (env : Env) (pressed : Nat → Bool)
    (s : MachineState) (p : Nat) (hp : firstPressedPin pressed = some p) :
    (pollPhase env pressed s).2.length = 1 ∧
    (pollPhase env pressed s).1.buttonPressedIndicator =
      (if s.beginnerMode = false then s.buttonPressedIndicator + 1
       else beginnerModeDelay) := by
  simp only [pollPhase, hp]
  constructor
  · rfl
  · rw [buttonPressed_keeps_indicator]
    split_ifs <;> rfl

/-- Claim C6 (amended): every tick transmits at most one command pair;
exactly one pair is transmitted on every tick outside beginner mode, on
every beginner-mode tick with a pressed button, and on beginner-mode
idle ticks whose latch counter is 0 or 1 — but a beginner-mode tick with
no pressed button and latch counter at least 2 performs no state-machine
update and no transmission at all. -/
theorem c6_one_send_per_tick (pot0 pot2 : Int) (pressed : Nat → Bool)
    (s : MachineState) :
    ((tick pot0 pot2 pressed s).2.length ≤ 1) ∧
    (s.beginnerMode = false → (tick pot0 pot2 pressed s).2.length = 1) ∧
    (s.beginnerMode = true → (firstPressedPin pressed).isSome = true →
      (tick pot0 pot2 pressed s).2.length = 1) ∧
    (s.beginnerMode = true → firstPressedPin pressed = none →
      s.buttonPressedIndicator ≤ 1 →
      (tick pot0 pot2 pressed s).2.length = 1) ∧
    (s.beginnerMode = true → firstPressedPin pressed = none →
      2 ≤ s.buttonPressedIndicator →
      (tick pot0 pot2 pressed s).2.length = 0) := by
  rcases hfp : firstPressedPin pressed with _ | p <;> cases hbm : s.beginnerMode
  · -- no button, beginner off: the idle branch sends exactly once
    have e3 : pollPhase (computeEnv pot0 pot2) pressed (latchPhase s) =
        ({ s with buttonPressedIndicator := 0, buttonPinNumber := 7 },
          ([] : List (Nat × Nat))) := by
      rw [pollPhase_none_props _ _ _ hfp, latchPhase_false s hbm]
    have f0 : (computeRawSpeeds
        ({ s with buttonPressedIndicator := 0, buttonPinNumber := 7 })).buttonPressedIndicator =
        0 := (computeRawSpeeds_frame _).1.trans rfl
    have hlen : (tick pot0 pot2 pressed s).2.length = 1 := by
      simp only [tick, e3]
      rw [if_pos f0]
      rfl
    refine ⟨by simp [hlen], fun _ => hlen, ?_, ?_, ?_⟩ <;>
      (intro hbt; exact absurd hbt (by decide))
  · -- no button, beginner on: sends once iff the latch counter is 0 or 1
    have e3 : pollPhase (computeEnv pot0 pot2) pressed (latchPhase s) =
        ({ s with buttonPressedIndicator := s.buttonPressedIndicator - 1
                , buttonPinNumber := 7 }, ([] : List (Nat × Nat))) := by
      rw [pollPhase_none_props _ _ _ hfp, latchPhase_true s hbm]
    have f0 : (computeRawSpeeds
        ({ s with buttonPressedIndicator := s.buttonPressedIndicator - 1
                , buttonPinNumber := 7 })).buttonPressedIndicator =
        s.buttonPressedIndicator - 1 := (computeRawSpeeds_frame _).1.trans rfl
    have hlen : (tick pot0 pot2 pressed s).2.length =
        if s.buttonPressedIndicator - 1 = 0 then 1 else 0 := by
      simp only [tick, e3]
      split_ifs with h1 h2 h2 <;> first | rfl | (exfalso; omega)
    refine ⟨by rw [hlen]; split_ifs <;> omega,
      fun hbt => absurd hbt (by decide),
      fun _ hs => absurd hs (by decide),
      fun _ _ hle => by rw [hlen, if_pos (by omega)],
      fun _ _ hge => by rw [hlen, if_neg (by omega)]⟩
  · -- button pressed, beginner off: the button branch sends exactly once
    obtain ⟨p1, p2⟩ :=
      pollPhase_some_props (computeEnv pot0 pot2) pressed (latchPhase s) p hfp
    have hind : (pollPhase (computeEnv pot0 pot2) pressed
        (latchPhase s)).1.buttonPressedIndicator = 1 := by
      rw [p2, latchPhase_false s hbm]
      simp [hbm]
    have f0 : (computeRawSpeeds (pollPhase (computeEnv pot0 pot2) pressed
        (latchPhase s)).1).buttonPressedIndicator = 1 :=
      (computeRawSpeeds_frame _).1.trans hind
    have hlen : (tick pot0 pot2 pressed s).2.length = 1 := by
      simp only [tick]
      rw [if_neg (by rw [f0]; decide)]
      exact p1
    refine ⟨by simp [hlen], fun _ => hlen, fun _ _ => hlen, ?_, ?_⟩ <;>
      (intro _ hn; exact absurd hn (by simp))
  · -- button pressed, beginner on: the latch is set and one pair is sent
    obtain ⟨p1, p2⟩ :=
      pollPhase_some_props (computeEnv pot0 pot2) pressed (latchPhase s) p hfp
    have hind : (pollPhase (computeEnv pot0 pot2) pressed
        (latchPhase s)).1.buttonPressedIndicator = beginnerModeDelay := by
      rw [p2, latchPhase_true s hbm]
      simp [hbm, beginnerModeDelay]
    have f0 : (computeRawSpeeds (pollPhase (computeEnv pot0 pot2) pressed
        (latchPhase s)).1).buttonPressedIndicator = beginnerModeDelay :=
      (computeRawSpeeds_frame _).1.trans hind
    have hlen : (tick pot0 pot2 pressed s).2.length = 1 := by
      simp only [tick]
      rw [if_neg (by rw [f0]; decide)]
      exact p1
    refine ⟨by simp [hlen], fun hbt => absurd hbt (by decide),
      fun _ _ => hlen, ?_, ?_⟩ <;>
      (intro _ hn; exact absurd hn (by simp))

/-- Witness for C1: at full throttle with centered trim, the boot state
is sent inside the wire ranges. -/
theorem c1_encoder_ranges_witness :
    1 ≤ (emitted (sendCommandFunction probeEnvHigh (initialState false))).1 ∧
    (emitted (sendCommandFunction probeEnvHigh (initialState false))).1 ≤ 127 ∧
    128 ≤ (emitted (sendCommandFunction probeEnvHigh (initialState false))).2 ∧
    (emitted (sendCommandFunction probeEnvHigh (initialState false))).2 ≤ 255 :=
  (c1_encoder_ranges probeEnvHigh (initialState false)).2.1 (by decide)

/-- Witness for C3: the dead-spot property at full-throttle bounds, for
a Forward step from rest and a Reverse step from straight motion. -/
theorem c3_steps_avoid_centers_witness :
    SteppedAvoidsCenters (accelerateForward probeEnvHigh) (initialState false) ∧
    SteppedAvoidsCenters (accelerateReverse probeEnvHigh) reverseProbeState :=
  ⟨(c3_steps_avoid_centers probeEnvHigh (initialState false)
      (by unfold BoundsOK; decide)).1 (by decide),
   (c3_steps_avoid_centers probeEnvHigh reverseProbeState
      (by unfold BoundsOK; decide)).2.1⟩

/-- Witness for C4: at the boot state the gate fails and the emitted
values equal the clamped commands, and the motor 1 no-cross facts hold. -/
theorem c4_trim_gate_witness :
    ((sendCommandFunction probeEnvHigh (initialState false)).motorByteRaw1 =
      (sendCommandFunction probeEnvHigh (initialState false)).state.motorControl1 ∧
     (sendCommandFunction probeEnvHigh (initialState false)).motorByteRaw2 =
      (sendCommandFunction probeEnvHigh (initialState false)).state.motorControl2) ∧
    ((deadStop1 <
        (sendCommandFunction probeEnvHigh (initialState false)).state.motorControl1 →
      deadStop1 <
        (sendCommandFunction probeEnvHigh (initialState false)).motorByteRaw1) ∧
     ((sendCommandFunction probeEnvHigh (initialState false)).state.motorControl1 <
        deadStop1 →
      (sendCommandFunction probeEnvHigh (initialState false)).motorByteRaw1 <
        deadStop1) ∧
     ((sendCommandFunction probeEnvHigh (initialState false)).state.motorControl1 =
        deadStop1 →
      (sendCommandFunction probeEnvHigh (initialState false)).motorByteRaw1 =
        deadStop1)) :=
  ⟨(c4_trim_gate probeEnvHigh (initialState false)).1 (by decide),
   (c4_trim_gate probeEnvHigh (initialState false)).2 (by decide)⟩

/-- Witness for C6: one pair per tick at boot, on a beginner-mode button
tick, and on a beginner-mode idle tick with latch counter 1. -/
theorem c6_one_send_per_tick_witness :
    (tick 512 512 pressNone (initialState false)).2.length = 1 ∧
    (tick 512 512 (press 3) (initialState true)).2.length = 1 ∧
    (tick 512 512 pressNone
      { initialState true with buttonPressedIndicator := 1 }).2.length = 1 :=
  ⟨(c6_one_send_per_tick 512 512 pressNone (initialState false)).2.1 rfl,
   (c6_one_send_per_tick 512 512 (press 3) (initialState true)).2.2.1 rfl
     (by decide),
   (c6_one_send_per_tick 512 512 pressNone
     { initialState true with buttonPressedIndicator := 1 }).2.2.2.1 rfl rfl
     (by decide)⟩

/-- Witness for C7: an e-stop tick from a moving state returns both
commands to their centers. -/
theorem c7_estop_resets_witness :
    (tick 512 512 (press 2) estopProbeState).1.motorControl1 = deadStop1 ∧
    (tick 512 512 (press 2) estopProbeState).1.motorControl2 = deadStop2 :=
  c7_estop_resets 512 512 (press 2) estopProbeState (by decide)

/-- Witness for C10: at commands 40 and 150 (both below center) the
directions are 48 and 0 and the pivot handlers take the differ branch. -/
theorem c10_direction_mismatch_witness :
    (computeRawSpeeds belowCenterProbeState).direction1 = 48 ∧
    (computeRawSpeeds belowCenterProbeState).direction2 = 0 ∧
    (computeRawSpeeds belowCenterProbeState).direction1 ≠
      (computeRawSpeeds belowCenterProbeState).direction2 ∧
    ((computeRawSpeeds belowCenterProbeState).rawSpeed1 =
      (computeRawSpeeds belowCenterProbeState).rawSpeed2 →
      leftButtonPressed probeEnvHigh (computeRawSpeeds belowCenterProbeState) =
        leftPivotBranch probeEnvHigh (computeRawSpeeds belowCenterProbeState) ∧
      rightButtonPressed probeEnvHigh (computeRawSpeeds belowCenterProbeState) =
        rightPivotBranch probeEnvHigh (computeRawSpeeds belowCenterProbeState)) :=
  c10_direction_mismatch probeEnvHigh belowCenterProbeState
    (by decide) (by decide) (by decide)

end FirstWheels